import Mathlib

/-!
Verification of the `smil2dock` SMILES-to-3D converter (`smile2dock.py`).

The script glues calls into external chemistry libraries (RDKit, OpenBabel,
Dimorphite-DL).  The embedding below keeps the script's own control flow
faithfully and treats every library call as an opaque function supplied by an
environment `Env`.  Library calls that may raise a Python exception are
modelled with `Except String`; `Chem.MolFromSmiles` returns `Option` because
the script tests its result against `None`.  Every observable effect of a run
(library call, file write, `print`, `logging` call) is recorded in order as an
`Event`, so theorems about sequencing, optional steps and output naming are
statements about the produced event trace.
-/

namespace Smil2Dock

/-- A SMILES string (plain text). -/
abbrev Smiles := String

/-- The property dictionary built at lines 112-123: descriptor name to value,
in insertion order. -/
abbrev Props (V : Type) := List (String × V)

/-- One observable step of a run: each constructor corresponds to one call
site of `smile2dock.py`.  `printEv` carries a tag naming which `print`
statement fired; `logEv` a logging level and message. -/
inductive Event where
  | protonateEv (smiles : Smiles)
  | printEv (tag : String)
  | parseEv (smiles : Smiles)
  | parseRefEv (smiles : Smiles)
  | embedEv (numConfs randomSeed : Nat) (enforceChirality : Bool)
  | optimizeEv (confId : Nat) (mmffVariant : String) (maxIters : Nat)
  | convertEv
  | mkdirEv (output_base : String)
  | exportEv (fmt : String) (path : String)
  | descriptorsEv
  | similarityEv (fp_type : String)
  | protonationHeaderEv
  | protonationLineEv (orig variant : Smiles)
  | logEv (level msg : String)
  deriving DecidableEq

/-- The external chemistry libraries, as opaque functions.  Each field is one
library entry point used by `smile2dock.py`; a field returning
`Except String _` models a call that may raise. -/
structure Env where
  Mol : Type
  OBMol : Type
  Val : Type
  Fp : Type
  Score : Type
  protonateLib : Smiles → Rat → Rat → Rat → Nat → Except String (List Smiles)
  molFromSmiles : Smiles → Option Mol
  addHs : Mol → Mol
  embedMultipleConfs : Mol → Nat → Nat → Bool → Except String Mol
  getNumConformers : Mol → Nat
  mmffOptimizeMolecule : Mol → Nat → String → Nat → Except String Mol
  molToMolBlock : Mol → Except String String
  pybelReadstring : String → String → Except String OBMol
  obWrite : OBMol → String → String → Except String Unit
  exactMolWt : Mol → Except String Val
  molLogP : Mol → Except String Val
  molMR : Mol → Except String Val
  numHDonors : Mol → Except String Val
  numHAcceptors : Mol → Except String Val
  tpsa : Mol → Except String Val
  numRotatableBonds : Mol → Except String Val
  calcNumAliphaticRings : Mol → Except String Val
  calcNumAromaticRings : Mol → Except String Val
  calcNumHeterocycles : Mol → Except String Val
  getMorganFingerprintAsBitVect : Mol → Nat → Nat → Fp
  fingerprintMol : Mol → Fp
  tanimotoSimilarity : Fp → Fp → Score

/-- Python `str.strip()`: drop leading and trailing whitespace. -/
def pyStrip (s : String) : String :=
  String.mk (((s.data.dropWhile Char.isWhitespace).reverse.dropWhile
    Char.isWhitespace).reverse)

/-- Python truthiness of the `properties` variable (`None` and `{}` are
falsy). -/
def propsTruthy {V : Type} (o : Option (Props V)) : Bool :=
  match o with
  | none => false
  | some l => !l.isEmpty

/-- Python truthiness of the `protonated_variants` variable. -/
def variantsTruthy (o : Option (List Smiles)) : Bool :=
  match o with
  | none => false
  | some l => !l.isEmpty

/-- Lines 28-41: `protonate_smiles`.  Calls Dimorphite-DL inside a
`try/except`; on any exception it prints an error and falls back to the
single-element list holding the original SMILES. -/
def protonate_smiles (env : Env) (smiles : Smiles) (ph_min ph_max precision : Rat)
    (max_variants : Nat) : List Event × List Smiles :=
  match env.protonateLib smiles ph_min ph_max precision max_variants with
  | .ok l => ([Event.protonateEv smiles], l)
  | .error _ => ([Event.protonateEv smiles, Event.printEv "protonation_error"], [smiles])

/-- One iteration of the optimization loop at lines 80-89: a guarded
`AllChem.MMFFOptimizeMolecule` call; on an exception the molecule is left as
it was and a warning is logged. -/
def optimizeStep (env : Env) (smiles : Smiles) (acc : List Event × env.Mol)
    (confId : Nat) : List Event × env.Mol :=
  match env.mmffOptimizeMolecule acc.2 confId "MMFF94s" 1000 with
  | .ok m =>
    (acc.1 ++ [Event.optimizeEv confId "MMFF94s" 1000], m)
  | .error _ =>
    (acc.1 ++ [Event.optimizeEv confId "MMFF94s" 1000,
      Event.logEv "warning" ("Optimization failed for conformer " ++ toString confId ++
        " of " ++ smiles)], acc.2)

/-- Lines 79-89: loop `MMFFOptimizeMolecule` over
`range(mol.GetNumConformers())`. -/
def optimizeConfs (env : Env) (mol : env.Mol) (smiles : Smiles) :
    List Event × env.Mol :=
  (List.range (env.getNumConformers mol)).foldl (optimizeStep env smiles) ([], mol)

/-- Lines 92-94: `Chem.MolToMolBlock` followed by `pybel.readstring`, the two
calls guarded by one `try`. -/
def convertToOB (env : Env) (mol : env.Mol) : Except String env.OBMol := do
  let sdf ← env.molToMolBlock mol
  env.pybelReadstring "mol" sdf

/-- Lines 104-108: one `ob_mol.write(fmt, output, overwrite=True)` in its
`try/except`. -/
def writeOne (env : Env) (ob : env.OBMol) (output_base fmt : String) : List Event :=
  match env.obWrite ob fmt (output_base ++ "." ++ fmt) with
  | .ok _ => [Event.exportEv fmt (output_base ++ "." ++ fmt)]
  | .error _ => [Event.exportEv fmt (output_base ++ "." ++ fmt),
      Event.logEv "error" ("Failed to write " ++ output_base ++ "." ++ fmt)]

/-- The export formats of line 103. -/
def fmts : List String := ["pdb", "mol2", "sdf", "pdbqt"]

/-- Lines 103-108: write the four formats `pdb`, `mol2`, `sdf`, `pdbqt`. -/
def writeFormats (env : Env) (ob : env.OBMol) (output_base : String) : List Event :=
  (fmts.map (writeOne env ob output_base)).flatten

/-- Lines 112-123: the ten descriptor calls that build the property
dictionary; any of them may raise. -/
def calcPropertiesE (env : Env) (mol : env.Mol) : Except String (Props env.Val) := do
  let mw ← env.exactMolWt mol
  let lp ← env.molLogP mol
  let mr ← env.molMR mol
  let hd ← env.numHDonors mol
  let ha ← env.numHAcceptors mol
  let tp ← env.tpsa mol
  let rb ← env.numRotatableBonds mol
  let al ← env.calcNumAliphaticRings mol
  let ar ← env.calcNumAromaticRings mol
  let ht ← env.calcNumHeterocycles mol
  pure [("Molecular Weight", mw), ("Crippen_LogP", lp), ("Crippen_MR", mr),
    ("H-Bond Donors", hd), ("H-Bond Acceptors", ha), ("TPSA", tp),
    ("Rotatable Bonds", rb), ("#Aliphatic Rings", al), ("#Aromatic Rings", ar),
    ("#Heteroaromatic Rings", ht)]

/-- Lines 110-126: the property block in its `try/except`; on failure the
dictionary is `{}` (the empty list) and an error is logged. -/
def calcProperties (env : Env) (mol : env.Mol) : List Event × Props env.Val :=
  match calcPropertiesE env mol with
  | .ok l => ([Event.descriptorsEv], l)
  | .error _ => ([Event.descriptorsEv,
      Event.logEv "error" "Property calculation failed"], [])

/-- Lines 91-128: OpenBabel conversion, `ensure_output_dir`, the four format
writes and the property block, given the final RDKit molecule.  On a
conversion failure the function's `(mol, properties)` outcome is
`(None, None)`. -/
def exportAndProps (env : Env) (output_base : String) (mol : env.Mol) :
    List Event × (Option env.Mol × Option (Props env.Val)) :=
  match convertToOB env mol with
  | .error _ =>
    ([Event.convertEv, Event.logEv "error" "OpenBabel conversion failed"],
     (none, none))
  | .ok ob =>
    let cp := calcProperties env mol
    (Event.convertEv :: Event.mkdirEv output_base ::
       (writeFormats env ob output_base ++ cp.1),
     (some mol, some cp.2))

/-- Lines 61-128: parse the (possibly protonated) SMILES, add hydrogens,
embed conformers with `randomSeed=42` and `enforceChirality=True`, optionally
optimize, then export and compute descriptors. -/
def generate3d (env : Env) (smiles : Smiles) (output_base : String)
    (num_confs : Nat) (optimize : Bool) :
    List Event × (Option env.Mol × Option (Props env.Val)) :=
  match env.molFromSmiles smiles with
  | none =>
    ([Event.parseEv smiles, Event.logEv "error" ("Invalid SMILES: " ++ smiles)],
     (none, none))
  | some m =>
    let molH := env.addHs m
    match env.embedMultipleConfs molH num_confs 42 true with
    | .error _ =>
      ([Event.parseEv smiles, Event.embedEv num_confs 42 true,
        Event.logEv "error" ("Conformer generation failed for " ++ smiles)],
       (none, none))
    | .ok mol2 =>
      let op := if optimize then optimizeConfs env mol2 smiles else ([], mol2)
      let ex := exportAndProps env output_base op.2
      (Event.parseEv smiles :: Event.embedEv num_confs 42 true :: (op.1 ++ ex.1),
       ex.2)

/-- Lines 43-132: `smiles_to_3d`.  When `protonate` is true the SMILES is
protonated first, the variants are printed and the first variant replaces the
input for 3D generation; an empty variant list makes `protonated_variants[0]`
raise, which the outer `except` turns into a logged `(None, None, variants)`
return.  When `protonate` is false the variant list is `[smiles]` and the
input is used unchanged. -/
def smiles_to_3d (env : Env) (smiles : Smiles) (output_base : String)
    (num_confs : Nat) (optimize protonate : Bool) (ph_min ph_max : Rat) :
    List Event × (Option env.Mol × Option (Props env.Val) × Option (List Smiles)) :=
  if protonate then
    let pr := protonate_smiles env smiles ph_min ph_max 1 128
    let tr0 := pr.1 ++ Event.printEv "variant_summary" ::
      pr.2.map (fun _ => Event.printEv "variant")
    match pr.2 with
    | [] =>
      (tr0 ++ [Event.logEv "error" ("Error processing " ++ smiles)],
       (none, none, some []))
    | v :: rest =>
      let tr1 := tr0 ++ (if rest.isEmpty then [] else [Event.printEv "using_first_variant"])
      let g := generate3d env v output_base num_confs optimize
      (tr1 ++ g.1, (g.2.1, g.2.2, some (v :: rest)))
  else
    let g := generate3d env smiles output_base num_confs optimize
    (g.1, (g.2.1, g.2.2, some [smiles]))

/-- Lines 134-145: `calculate_tanimoto_similarity`.  `None` when either
molecule is `None` (with a warning); otherwise Tanimoto over Morgan
fingerprints when `fp_type == "morgan"`, over RDKit fingerprints
otherwise. -/
def calculate_tanimoto_similarity (env : Env) (mol1 mol2 : Option env.Mol)
    (fp_type : String) (radius n_bits : Nat) : List Event × Option env.Score :=
  match mol1, mol2 with
  | some m1, some m2 =>
    if fp_type == "morgan" then
      ([Event.similarityEv "morgan"],
       some (env.tanimotoSimilarity
         (env.getMorganFingerprintAsBitVect m1 radius n_bits)
         (env.getMorganFingerprintAsBitVect m2 radius n_bits)))
    else
      ([Event.similarityEv fp_type],
       some (env.tanimotoSimilarity (env.fingerprintMol m1) (env.fingerprintMol m2)))
  | _, _ =>
    ([Event.logEv "warning" "One or both molecules are None, cannot calculate similarity."],
     none)

/-- Line 222: `is_valid_smiles`. -/
def is_valid_smiles (env : Env) (smiles : Smiles) : Bool :=
  (env.molFromSmiles smiles).isSome

/-- The similarity step against an already-parsed reference molecule, and the
print of its score when it is not `None` (lines 183-185 and 214-216). -/
def simOutput (env : Env) (mol : Option env.Mol) (rm : env.Mol) (fp_type : String)
    (radius n_bits : Nat) : List Event :=
  (calculate_tanimoto_similarity env mol (some rm) fp_type radius n_bits).1 ++
  (if (calculate_tanimoto_similarity env mol (some rm) fp_type radius n_bits).2.isSome then
    [Event.printEv "similarity"] else [])

/-- Lines 210-218 of `single_process`: parse the reference SMILES (when one
was supplied and truthy) and run the similarity comparison, or print that the
reference is invalid. -/
def refOutput (env : Env) (mol : Option env.Mol) (reference_smiles : Option Smiles)
    (fp_type : String) (radius n_bits : Nat) : List Event :=
  match reference_smiles with
  | some ref =>
    if ref == "" then []
    else
      Event.parseRefEv ref ::
      (match env.molFromSmiles ref with
       | some rm => simOutput env mol rm fp_type radius n_bits
       | none => [Event.printEv "invalid_reference"])
  | none => []

/-- Lines 198-218 of `single_process`: the output block.  It runs only when
the property dictionary is truthy (non-`None` and non-empty), and the
reference comparison only when a truthy reference SMILES was supplied. -/
def singleOutput (env : Env) (mol : Option env.Mol) (props : Option (Props env.Val))
    (variants : Option (List Smiles)) (reference_smiles : Option Smiles)
    (fp_type : String) (radius n_bits : Nat) (protonate : Bool) : List Event :=
  if propsTruthy props then
    [Event.printEv "generated_files", Event.printEv "properties"] ++
    (if protonate && variantsTruthy variants then
      Event.printEv "protonation_header" ::
        (variants.getD []).map (fun _ => Event.printEv "protonation_state")
     else []) ++
    refOutput env mol reference_smiles fp_type radius n_bits
  else []

/-- Lines 191-218: `single_process`, continued — `smiles_to_3d` followed by the
output block `singleOutput`. -/
def single_process (env : Env) (smiles : Smiles) (output_base : String)
    (num_confs : Nat) (reference_smiles : Option Smiles) (fp_type : String)
    (radius n_bits : Nat) (protonate : Bool) (ph_min ph_max : Rat) : List Event :=
  let r := smiles_to_3d env smiles output_base num_confs true protonate ph_min ph_max
  r.1 ++ singleOutput env r.2.1 r.2.2.1 r.2.2.2 reference_smiles fp_type radius n_bits protonate

/-- Lines 150-156 of `batch_process`: parse the reference SMILES once, before
the loop; an invalid reference is logged and similarity is skipped. -/
def refMolOf (env : Env) (reference_smiles : Option Smiles) :
    List Event × Option env.Mol :=
  match reference_smiles with
  | some r =>
    if r == "" then ([], none)
    else
      match env.molFromSmiles r with
      | some rm => ([Event.parseRefEv r], some rm)
      | none => ([Event.parseRefEv r,
          Event.logEv "error" ("Invalid reference SMILES: " ++ r)], none)
  | none => ([], none)

/-- Lines 172-185 of `batch_process`: the per-line output block — prints,
the protonation-file lines, and the optional similarity computation against
the pre-parsed reference molecule. -/
def batchOutput (env : Env) (mol : Option env.Mol) (props : Option (Props env.Val))
    (variants : Option (List Smiles)) (smiles : Smiles) (ref_mol : Option env.Mol)
    (fp_type : String) (radius n_bits : Nat) (protonate : Bool) : List Event :=
  if propsTruthy props then
    [Event.printEv "processed", Event.printEv "properties"] ++
    (if protonate && variantsTruthy variants then
      (variants.getD []).map (fun v => Event.protonationLineEv smiles v)
     else []) ++
    (match ref_mol with
     | some rm => simOutput env mol rm fp_type radius n_bits
     | none => [])
  else []

/-- Lines 165-185: one line of the batch loop.  The line is stripped; a falsy
(blank) line is skipped.  A processed line uses the base name
`output_dir/mol_<idx+1>` — `idx` its 0-based position among all lines of the
file — then runs `smiles_to_3d` and the per-line output block. -/
def batchLine (env : Env) (output_dir : String) (ref_mol : Option env.Mol)
    (fp_type : String) (radius n_bits : Nat) (protonate : Bool)
    (ph_min ph_max : Rat) (num_confs : Nat) (idx : Nat) (line : String) :
    List Event :=
  let smiles := pyStrip line
  if smiles == "" then []
  else
    let base_name := output_dir ++ "/mol_" ++ toString (idx + 1)
    let r := smiles_to_3d env smiles base_name num_confs true protonate ph_min ph_max
    r.1 ++ batchOutput env r.2.1 r.2.2.1 r.2.2.2 smiles ref_mol fp_type radius n_bits protonate

/-- The per-line event chunks of the batch loop, in file order. -/
def batchChunks (env : Env) (output_dir : String) (ref_mol : Option env.Mol)
    (fp_type : String) (radius n_bits : Nat) (protonate : Bool)
    (ph_min ph_max : Rat) (num_confs : Nat) (input_lines : List String) :
    List (List Event) :=
  input_lines.enum.map (fun p =>
    batchLine env output_dir ref_mol fp_type radius n_bits protonate
      ph_min ph_max num_confs p.1 p.2)

/-- Lines 147-189: `batch_process`.  Reference parsing and the protonation
file header come before the loop; the loop runs `batchLine` on each
enumerated line; the protonation file is closed (and its path printed)
afterwards. -/
def batch_process (env : Env) (input_lines : List String) (output_dir : String)
    (reference_smiles : Option Smiles) (fp_type : String) (radius n_bits : Nat)
    (protonate : Bool) (ph_min ph_max : Rat) (num_confs : Nat) : List Event :=
  let rs := refMolOf env reference_smiles
  rs.1 ++
  (if protonate then [Event.protonationHeaderEv] else []) ++
  input_lines.enum.foldl
    (fun tr p => tr ++ batchLine env output_dir rs.2 fp_type radius n_bits
      protonate ph_min ph_max num_confs p.1 p.2) [] ++
  (if protonate then [Event.printEv "protonation_saved"] else [])

/-- Is the event a `print`? -/
def isPrintEv : Event → Bool
  | .printEv _ => true
  | _ => false

/-- Everything except `print` output: the computational events of a trace. -/
def notPrintEv (ev : Event) : Bool := !isPrintEv ev

/-- Is the event a call of the protonation library? -/
def isProtonateEv : Event → Bool
  | .protonateEv _ => true
  | _ => false

/-- Is the event a similarity (fingerprint/Tanimoto) computation? -/
def isSimilarityEv : Event → Bool
  | .similarityEv _ => true
  | _ => false

/-- Is the event an `MMFFOptimizeMolecule` call? -/
def isOptimizeEv : Event → Bool
  | .optimizeEv _ _ _ => true
  | _ => false

/-- The SMILES argument of a `MolFromSmiles` parse of the processed input. -/
def parseArg : Event → Option Smiles
  | .parseEv s => some s
  | _ => none

/-- The `randomSeed` argument of an `EmbedMultipleConfs` call. -/
def embedSeedArg : Event → Option Nat
  | .embedEv _ seed _ => some seed
  | _ => none

/-- The path of a format-export file write. -/
def exportPath : Event → Option String
  | .exportEv _ p => some p
  | _ => none

/-- The phase number a pipeline event has under the claimed order
"parse → optionally protonate → embed 3D → optionally optimize → export
formats → compute descriptors → optionally score similarity → write outputs".
Logging, directory creation and the protonation bookkeeping file carry no
phase. -/
def claimPhase : Event → Option Nat
  | .parseEv _ => some 0
  | .protonateEv _ => some 1
  | .embedEv _ _ _ => some 2
  | .optimizeEv _ _ _ => some 3
  | .convertEv => some 4
  | .exportEv _ _ => some 4
  | .descriptorsEv => some 5
  | .parseRefEv _ => some 6
  | .similarityEv _ => some 6
  | .printEv _ => some 7
  | .protonationLineEv _ _ => some 7
  | _ => none

/-- The phase number an event has under the order the code actually follows:
optionally protonate (printing its variants) → parse → embed 3D → optionally
optimize → export formats → compute descriptors → write the molecule outputs
→ optionally score similarity → write the similarity output. -/
def codePhase : Event → Option Nat
  | .protonateEv _ => some 0
  | .printEv tag =>
    if tag == "variant_summary" || tag == "variant" ||
        tag == "using_first_variant" || tag == "protonation_error" then some 0
    else if tag == "similarity" || tag == "invalid_reference" then some 8
    else some 6
  | .parseEv _ => some 1
  | .embedEv _ _ _ => some 2
  | .optimizeEv _ _ _ => some 3
  | .convertEv => some 4
  | .mkdirEv _ => some 4
  | .exportEv _ _ => some 4
  | .descriptorsEv => some 5
  | .parseRefEv _ => some 7
  | .similarityEv _ => some 7
  | _ => none

/-- Is a list of phase numbers nondecreasing? -/
def monotoneB : List Nat → Bool
  | a :: b :: t => decide (a ≤ b) && monotoneB (b :: t)
  | _ => true

/-- The phases of a trace are nondecreasing and all lie in `[lo, hi]`. -/
def PhasesIn (tr : List Event) (lo hi : Nat) : Prop :=
  monotoneB (tr.filterMap codePhase) = true ∧
  ∀ p ∈ tr.filterMap codePhase, lo ≤ p ∧ p ≤ hi

/-- A concrete environment for counterexamples and witnesses: every library
call succeeds, molecules are numbers, parsing fails exactly on the empty
string, and protonation yields two variants. -/
abbrev envA : Env :=
  { Mol := Nat, OBMol := Nat, Val := Nat, Fp := Nat, Score := Nat,
    protonateLib := fun s _ _ _ _ => .ok [s, s],
    molFromSmiles := fun s => if s.length == 0 then none else some s.length,
    addHs := fun m => m + 1,
    embedMultipleConfs := fun m n _ _ => .ok (m + n),
    getNumConformers := fun _ => 2,
    mmffOptimizeMolecule := fun m _ _ _ => .ok (m + 10),
    molToMolBlock := fun m => .ok (toString m),
    pybelReadstring := fun _ sdf => .ok sdf.length,
    obWrite := fun _ _ _ => .ok (),
    exactMolWt := fun m => .ok m,
    molLogP := fun m => .ok m,
    molMR := fun m => .ok m,
    numHDonors := fun m => .ok m,
    numHAcceptors := fun m => .ok m,
    tpsa := fun m => .ok m,
    numRotatableBonds := fun m => .ok m,
    calcNumAliphaticRings := fun m => .ok m,
    calcNumAromaticRings := fun m => .ok m,
    calcNumHeterocycles := fun m => .ok m,
    getMorganFingerprintAsBitVect := fun m r b => m + r + b,
    fingerprintMol := fun m => m,
    tanimotoSimilarity := fun a b => a + b }

/-- `envA` with a failing `ExactMolWt` descriptor: property calculation
raises. -/
abbrev envB : Env := { envA with exactMolWt := fun _ => .error "descriptor failure" }

/-- `envA` with a protonation library that raises. -/
abbrev envErr : Env :=
  { envA with protonateLib := fun _ _ _ _ _ => .error "dimorphite failure" }

/-- `envA` with conformer embedding that raises. -/
abbrev envEmb : Env :=
  { envA with embedMultipleConfs := fun _ _ _ _ => .error "embed failure" }

/-- `envA` with an OpenBabel conversion that raises. -/
abbrev envConv : Env := { envA with molToMolBlock := fun _ => .error "conversion failure" }

/-- `e` with its protonation library replaced by one that returns exactly the
variant list `l`. -/
abbrev withLib (e : Env) (l : List Smiles) : Env :=
  { e with protonateLib := fun _ _ _ _ _ => .ok l }

/-! ### Helper lemmas about phase lists and traces -/

theorem monotoneB_of_all_eq (k : Nat) : ∀ (l : List Nat), (∀ p ∈ l, p = k) →
    monotoneB l = true := by
  intro l
  induction l with
  | nil => intro _; rfl
  | cons a t ih =>
    intro h
    cases t with
    | nil => rfl
    | cons b t2 =>
      have ha : a = k := h a (by simp)
      have hb : b = k := h b (by simp)
      have ht : monotoneB (b :: t2) = true :=
        ih (fun p hp => h p (List.mem_cons_of_mem a hp))
      subst ha
      subst hb
      simp [monotoneB, ht]

theorem monotoneB_append : ∀ (l1 l2 : List Nat), monotoneB l1 = true →
    monotoneB l2 = true → (∀ x ∈ l1, ∀ y ∈ l2, x ≤ y) →
    monotoneB (l1 ++ l2) = true := by
  intro l1
  induction l1 with
  | nil => intro l2 _ h2 _; simpa using h2
  | cons a t ih =>
    intro l2 h1 h2 hcross
    cases t with
    | nil =>
      cases l2 with
      | nil => rfl
      | cons b t2 =>
        have hab : a ≤ b := hcross a (by simp) b (by simp)
        show monotoneB (a :: b :: t2) = true
        simp [monotoneB, hab, h2]
    | cons b t2 =>
      have hab : a ≤ b := by
        have h1' := h1
        simp [monotoneB] at h1'
        exact h1'.1
      have h1'' : monotoneB (b :: t2) = true := by
        simp [monotoneB] at h1
        exact h1.2
      have hrec := ih l2 h1'' h2
        (fun x hx y hy => hcross x (List.mem_cons_of_mem a hx) y hy)
      show monotoneB (a :: b :: (t2 ++ l2)) = true
      simp only [monotoneB, Bool.and_eq_true, decide_eq_true_eq]
      exact ⟨hab, hrec⟩

theorem phasesIn_nil (lo hi : Nat) : PhasesIn [] lo hi := ⟨rfl, by simp⟩

theorem phasesIn_mono {tr : List Event} {lo hi lo' hi' : Nat} (h : PhasesIn tr lo hi)
    (h1 : lo' ≤ lo) (h2 : hi ≤ hi') : PhasesIn tr lo' hi' :=
  ⟨h.1, fun p hp => ⟨le_trans h1 (h.2 p hp).1, le_trans (h.2 p hp).2 h2⟩⟩

theorem phasesIn_append {tr1 tr2 : List Event} {lo1 hi1 lo2 hi2 : Nat}
    (h1 : PhasesIn tr1 lo1 hi1) (h2 : PhasesIn tr2 lo2 hi2)
    (hmid : hi1 ≤ lo2) (hlo : lo1 ≤ lo2) (hhi : hi1 ≤ hi2) :
    PhasesIn (tr1 ++ tr2) lo1 hi2 := by
  constructor
  · rw [List.filterMap_append]
    exact monotoneB_append _ _ h1.1 h2.1
      (fun x hx y hy => le_trans (h1.2 x hx).2 (le_trans hmid (h2.2 y hy).1))
  · intro p hp
    rw [List.filterMap_append, List.mem_append] at hp
    rcases hp with hp | hp
    · exact ⟨(h1.2 p hp).1, le_trans (h1.2 p hp).2 hhi⟩
    · exact ⟨le_trans hlo (h2.2 p hp).1, (h2.2 p hp).2⟩

theorem phasesIn_of_const {tr : List Event} (k lo hi : Nat)
    (h : ∀ ev ∈ tr, codePhase ev = some k ∨ codePhase ev = none)
    (hlo : lo ≤ k) (hhi : k ≤ hi) : PhasesIn tr lo hi := by
  have hall : ∀ p ∈ tr.filterMap codePhase, p = k := by
    intro p hp
    rw [List.mem_filterMap] at hp
    obtain ⟨ev, hev, hevp⟩ := hp
    rcases h ev hev with h' | h' <;> rw [h'] at hevp
    · exact (Option.some.inj hevp).symm
    · exact absurd hevp (by simp)
  exact ⟨monotoneB_of_all_eq k _ hall, fun p hp => by rw [hall p hp]; exact ⟨hlo, hhi⟩⟩

/-! ### Shape of the traces produced by each step -/

theorem protonate_smiles_shape (env : Env) (s : Smiles) (pmin pmax prec : Rat)
    (mv : Nat) : ∀ ev ∈ (protonate_smiles env s pmin pmax prec mv).1,
    ev = Event.protonateEv s ∨ ev = Event.printEv "protonation_error" := by
  intro ev h
  unfold protonate_smiles at h
  split at h <;> simp at h <;> tauto

theorem optimizeStep_fold_shape (env : Env) (s : Smiles) :
    ∀ (l : List Nat) (acc : List Event × env.Mol) (ev : Event),
    ev ∈ (l.foldl (optimizeStep env s) acc).1 →
    ev ∈ acc.1 ∨ (∃ c, ev = Event.optimizeEv c "MMFF94s" 1000) ∨
      ∃ msg, ev = Event.logEv "warning" msg := by
  intro l
  induction l with
  | nil => intro acc ev h; exact Or.inl h
  | cons c t ih =>
    intro acc ev h
    rw [List.foldl_cons] at h
    rcases ih _ ev h with hacc | hrest
    · unfold optimizeStep at hacc
      split at hacc <;>
        simp only [List.mem_append, List.mem_cons, List.mem_singleton,
          List.not_mem_nil, or_false] at hacc <;>
        rcases hacc with hacc | hacc
      · exact Or.inl hacc
      · exact Or.inr (Or.inl ⟨c, hacc⟩)
      · exact Or.inl hacc
      · rcases hacc with hacc | hacc
        · exact Or.inr (Or.inl ⟨c, hacc⟩)
        · exact Or.inr (Or.inr ⟨_, hacc⟩)
    · exact Or.inr hrest

theorem optimizeConfs_shape (env : Env) (m : env.Mol) (s : Smiles) :
    ∀ ev ∈ (optimizeConfs env m s).1,
    (∃ c, ev = Event.optimizeEv c "MMFF94s" 1000) ∨
      ∃ msg, ev = Event.logEv "warning" msg := by
  intro ev h
  rcases optimizeStep_fold_shape env s _ ([], m) ev h with h0 | h1
  · simp at h0
  · exact h1

theorem writeOne_shape (env : Env) (ob : env.OBMol) (b fmt : String) :
    ∀ ev ∈ writeOne env ob b fmt,
    ev = Event.exportEv fmt (b ++ "." ++ fmt) ∨ ∃ msg, ev = Event.logEv "error" msg := by
  intro ev h
  unfold writeOne at h
  split at h <;> simp at h <;> tauto

theorem writeFormats_shape (env : Env) (ob : env.OBMol) (b : String) :
    ∀ ev ∈ writeFormats env ob b,
    (∃ fmt, fmt ∈ fmts ∧ ev = Event.exportEv fmt (b ++ "." ++ fmt)) ∨
      ∃ msg, ev = Event.logEv "error" msg := by
  intro ev h
  unfold writeFormats at h
  rw [List.mem_flatten] at h
  obtain ⟨l, hl, hev⟩ := h
  rw [List.mem_map] at hl
  obtain ⟨fmt, hfmt, rfl⟩ := hl
  rcases writeOne_shape env ob b fmt ev hev with h' | h'
  · exact Or.inl ⟨fmt, hfmt, h'⟩
  · exact Or.inr h'

theorem calcProperties_shape (env : Env) (m : env.Mol) :
    ∀ ev ∈ (calcProperties env m).1,
    ev = Event.descriptorsEv ∨
      ev = Event.logEv "error" "Property calculation failed" := by
  intro ev h
  unfold calcProperties at h
  split at h <;> simp at h <;> tauto

theorem exportAndProps_shape (env : Env) (b : String) (m : env.Mol) :
    ∀ ev ∈ (exportAndProps env b m).1,
    ev = Event.convertEv ∨ ev = Event.mkdirEv b ∨
    (∃ fmt, fmt ∈ fmts ∧ ev = Event.exportEv fmt (b ++ "." ++ fmt)) ∨
    ev = Event.descriptorsEv ∨ ∃ lv msg, ev = Event.logEv lv msg := by
  intro ev h
  unfold exportAndProps at h
  split at h
  · simp at h
    rcases h with h | h
    · exact Or.inl h
    · exact Or.inr (Or.inr (Or.inr (Or.inr ⟨_, _, h⟩)))
  · simp only [List.mem_cons, List.mem_append] at h
    rcases h with h | h | h | h
    · exact Or.inl h
    · exact Or.inr (Or.inl h)
    · rcases writeFormats_shape env _ b ev h with h' | ⟨msg, h'⟩
      · exact Or.inr (Or.inr (Or.inl h'))
      · exact Or.inr (Or.inr (Or.inr (Or.inr ⟨_, _, h'⟩)))
    · rcases calcProperties_shape env m ev h with h' | h'
      · exact Or.inr (Or.inr (Or.inr (Or.inl h')))
      · exact Or.inr (Or.inr (Or.inr (Or.inr ⟨_, _, h'⟩)))

theorem generate3d_shape (env : Env) (s b : String) (n : Nat) (o : Bool) :
    ∀ ev ∈ (generate3d env s b n o).1,
    ev = Event.parseEv s ∨ ev = Event.embedEv n 42 true ∨
    (∃ c, ev = Event.optimizeEv c "MMFF94s" 1000) ∨
    ev = Event.convertEv ∨ ev = Event.mkdirEv b ∨
    (∃ fmt, fmt ∈ fmts ∧ ev = Event.exportEv fmt (b ++ "." ++ fmt)) ∨
    ev = Event.descriptorsEv ∨ ∃ lv msg, ev = Event.logEv lv msg := by
  intro ev h
  rcases hp : env.molFromSmiles s with _ | m
  · simp only [generate3d, hp] at h
    simp at h
    rcases h with h | h
    · exact Or.inl h
    · exact Or.inr (Or.inr (Or.inr (Or.inr (Or.inr (Or.inr (Or.inr ⟨_, _, h⟩))))))
  · rcases he : env.embedMultipleConfs (env.addHs m) n 42 true with e | mol2
    · simp only [generate3d, hp, he] at h
      simp at h
      rcases h with h | h | h
      · exact Or.inl h
      · exact Or.inr (Or.inl h)
      · exact Or.inr (Or.inr (Or.inr (Or.inr (Or.inr (Or.inr (Or.inr ⟨_, _, h⟩))))))
    · simp only [generate3d, hp, he] at h
      cases o with
      | false =>
        simp only [Bool.false_eq_true, if_false, List.nil_append,
          List.mem_cons] at h
        rcases h with h | h | h
        · exact Or.inl h
        · exact Or.inr (Or.inl h)
        · rcases exportAndProps_shape env b _ ev h with h' | h' | h' | h' | h'
          · exact Or.inr (Or.inr (Or.inr (Or.inl h')))
          · exact Or.inr (Or.inr (Or.inr (Or.inr (Or.inl h'))))
          · exact Or.inr (Or.inr (Or.inr (Or.inr (Or.inr (Or.inl h')))))
          · exact Or.inr (Or.inr (Or.inr (Or.inr (Or.inr (Or.inr (Or.inl h'))))))
          · exact Or.inr (Or.inr (Or.inr (Or.inr (Or.inr (Or.inr (Or.inr h'))))))
      | true =>
        simp only [if_true, List.mem_cons, List.mem_append] at h
        rcases h with h | h | h | h
        · exact Or.inl h
        · exact Or.inr (Or.inl h)
        · rcases optimizeConfs_shape env _ s ev h with h' | ⟨msg, h'⟩
          · exact Or.inr (Or.inr (Or.inl h'))
          · exact Or.inr (Or.inr (Or.inr (Or.inr (Or.inr (Or.inr (Or.inr ⟨_, _, h'⟩))))))
        · rcases exportAndProps_shape env b _ ev h with h' | h' | h' | h' | h'
          · exact Or.inr (Or.inr (Or.inr (Or.inl h')))
          · exact Or.inr (Or.inr (Or.inr (Or.inr (Or.inl h'))))
          · exact Or.inr (Or.inr (Or.inr (Or.inr (Or.inr (Or.inl h')))))
          · exact Or.inr (Or.inr (Or.inr (Or.inr (Or.inr (Or.inr (Or.inl h'))))))
          · exact Or.inr (Or.inr (Or.inr (Or.inr (Or.inr (Or.inr (Or.inr h'))))))

theorem smiles_to_3d_shape (env : Env) (s b : String) (n : Nat) (o pr : Bool)
    (pmin pmax : Rat) : ∀ ev ∈ (smiles_to_3d env s b n o pr pmin pmax).1,
    ev = Event.protonateEv s ∨ (∃ t, ev = Event.printEv t) ∨
    (∃ t, ev = Event.parseEv t) ∨ ev = Event.embedEv n 42 true ∨
    (∃ c, ev = Event.optimizeEv c "MMFF94s" 1000) ∨
    ev = Event.convertEv ∨ ev = Event.mkdirEv b ∨
    (∃ fmt, fmt ∈ fmts ∧ ev = Event.exportEv fmt (b ++ "." ++ fmt)) ∨
    ev = Event.descriptorsEv ∨ ∃ lv msg, ev = Event.logEv lv msg := by
  intro ev h
  have hgen : ∀ t, ev ∈ (generate3d env t b n o).1 →
      ev = Event.protonateEv s ∨ (∃ u, ev = Event.printEv u) ∨
      (∃ u, ev = Event.parseEv u) ∨ ev = Event.embedEv n 42 true ∨
      (∃ c, ev = Event.optimizeEv c "MMFF94s" 1000) ∨
      ev = Event.convertEv ∨ ev = Event.mkdirEv b ∨
      (∃ fmt, fmt ∈ fmts ∧ ev = Event.exportEv fmt (b ++ "." ++ fmt)) ∨
      ev = Event.descriptorsEv ∨ ∃ lv msg, ev = Event.logEv lv msg := by
    intro t ht
    rcases generate3d_shape env t b n o ev ht with h' | h' | h' | h' | h' | h' | h' | h'
    · exact Or.inr (Or.inr (Or.inl ⟨t, h'⟩))
    · exact Or.inr (Or.inr (Or.inr (Or.inl h')))
    · exact Or.inr (Or.inr (Or.inr (Or.inr (Or.inl h'))))
    · exact Or.inr (Or.inr (Or.inr (Or.inr (Or.inr (Or.inl h')))))
    · exact Or.inr (Or.inr (Or.inr (Or.inr (Or.inr (Or.inr (Or.inl h'))))))
    · exact Or.inr (Or.inr (Or.inr (Or.inr (Or.inr (Or.inr (Or.inr (Or.inl h')))))))
    · exact Or.inr (Or.inr (Or.inr (Or.inr (Or.inr (Or.inr (Or.inr (Or.inr (Or.inl h'))))))))
    · exact Or.inr (Or.inr (Or.inr (Or.inr (Or.inr (Or.inr (Or.inr (Or.inr (Or.inr h'))))))))
  have hpre : ∀ (x : List Smiles), ev ∈ (protonate_smiles env s pmin pmax 1 128).1 ++
      Event.printEv "variant_summary" ::
        List.map (fun _ => Event.printEv "variant") x →
      ev = Event.protonateEv s ∨ ∃ t, ev = Event.printEv t := by
    intro x hx
    simp only [List.mem_append, List.mem_cons] at hx
    rcases hx with hx | hx | hx
    · rcases protonate_smiles_shape env s pmin pmax 1 128 ev hx with h' | h'
      · exact Or.inl h'
      · exact Or.inr ⟨_, h'⟩
    · exact Or.inr ⟨_, hx⟩
    · rw [List.mem_map] at hx
      obtain ⟨_, _, hx⟩ := hx
      exact Or.inr ⟨_, hx.symm⟩
  cases pr with
  | false =>
    simp only [smiles_to_3d, Bool.false_eq_true, if_false] at h
    exact hgen _ h
  | true =>
    rcases hv : (protonate_smiles env s pmin pmax 1 128).2 with _ | ⟨v, rest⟩ <;>
      simp only [smiles_to_3d, if_true, hv] at h
    · simp only [List.mem_append] at h
      rcases h with h | h
      · rcases hpre _ (List.mem_append.mpr h) with h' | h'
        · exact Or.inl h'
        · exact Or.inr (Or.inl h')
      · simp at h
        exact Or.inr (Or.inr (Or.inr (Or.inr (Or.inr (Or.inr (Or.inr (Or.inr
          (Or.inr ⟨_, _, h⟩))))))))
    · simp only [List.mem_append] at h
      rcases h with (h | h) | h
      · rcases hpre _ (List.mem_append.mpr h) with h' | h'
        · exact Or.inl h'
        · exact Or.inr (Or.inl h')
      · rcases hre : rest.isEmpty with _ | _ <;> rw [hre] at h
        · simp at h
          exact Or.inr (Or.inl ⟨_, h⟩)
        · simp at h
      · exact hgen _ h

/-! ### Derived trace computations -/

theorem optimizeConfs_parseArg (env : Env) (m : env.Mol) (s : Smiles) :
    (optimizeConfs env m s).1.filterMap parseArg = [] := by
  rw [List.filterMap_eq_nil_iff]
  intro ev h
  rcases optimizeConfs_shape env m s ev h with ⟨c, rfl⟩ | ⟨msg, rfl⟩ <;> rfl

theorem exportAndProps_parseArg (env : Env) (b : String) (m : env.Mol) :
    (exportAndProps env b m).1.filterMap parseArg = [] := by
  rw [List.filterMap_eq_nil_iff]
  intro ev h
  rcases exportAndProps_shape env b m ev h with rfl | rfl | ⟨fmt, _, rfl⟩ | rfl | ⟨lv, msg, rfl⟩ <;>
    rfl

theorem generate3d_parseArg (env : Env) (s b : String) (n : Nat) (o : Bool) :
    (generate3d env s b n o).1.filterMap parseArg = [s] := by
  rcases hp : env.molFromSmiles s with _ | m
  · simp [generate3d, hp, List.filterMap_cons, parseArg]
  · rcases he : env.embedMultipleConfs (env.addHs m) n 42 true with e | mol2
    · simp [generate3d, hp, he, List.filterMap_cons, parseArg]
    · cases o with
      | false =>
        simp [generate3d, hp, he, List.filterMap_cons, List.filterMap_append,
          parseArg, exportAndProps_parseArg]
      | true =>
        simp [generate3d, hp, he, List.filterMap_cons, List.filterMap_append,
          parseArg, exportAndProps_parseArg, optimizeConfs_parseArg]

theorem generate3d_no_protonate (env : Env) (s b : String) (n : Nat) (o : Bool) :
    (generate3d env s b n o).1.filter isProtonateEv = [] := by
  rw [List.filter_eq_nil_iff]
  intro ev h
  rcases generate3d_shape env s b n o ev h with rfl | rfl | ⟨c, rfl⟩ | rfl | rfl |
    ⟨fmt, _, rfl⟩ | rfl | ⟨lv, msg, rfl⟩ <;> simp [isProtonateEv]

theorem smiles_to_3d_no_similarity (env : Env) (s b : String) (n : Nat)
    (o pr : Bool) (pmin pmax : Rat) :
    (smiles_to_3d env s b n o pr pmin pmax).1.filter isSimilarityEv = [] := by
  rw [List.filter_eq_nil_iff]
  intro ev h
  rcases smiles_to_3d_shape env s b n o pr pmin pmax ev h with rfl | ⟨t, rfl⟩ |
    ⟨t, rfl⟩ | rfl | ⟨c, rfl⟩ | rfl | rfl | ⟨fmt, _, rfl⟩ | rfl | ⟨lv, msg, rfl⟩ <;>
    simp [isSimilarityEv]

theorem smiles_to_3d_embed_seed (env : Env) (s b : String) (n : Nat)
    (o pr : Bool) (pmin pmax : Rat) :
    ∀ k ∈ (smiles_to_3d env s b n o pr pmin pmax).1.filterMap embedSeedArg, k = 42 := by
  intro k hk
  rw [List.mem_filterMap] at hk
  obtain ⟨ev, hev, hk⟩ := hk
  rcases smiles_to_3d_shape env s b n o pr pmin pmax ev hev with rfl | ⟨t, rfl⟩ |
    ⟨t, rfl⟩ | rfl | ⟨c, rfl⟩ | rfl | rfl | ⟨fmt, _, rfl⟩ | rfl | ⟨lv, msg, rfl⟩ <;>
    simp [embedSeedArg] at hk
  omega

theorem smiles_to_3d_exports (env : Env) (s b : String) (n : Nat)
    (o pr : Bool) (pmin pmax : Rat) :
    ∀ p ∈ (smiles_to_3d env s b n o pr pmin pmax).1.filterMap exportPath,
    ∃ fmt, fmt ∈ fmts ∧ p = b ++ "." ++ fmt := by
  intro p hp
  rw [List.mem_filterMap] at hp
  obtain ⟨ev, hev, hp⟩ := hp
  rcases smiles_to_3d_shape env s b n o pr pmin pmax ev hev with rfl | ⟨t, rfl⟩ |
    ⟨t, rfl⟩ | rfl | ⟨c, rfl⟩ | rfl | rfl | ⟨fmt, hfmt, rfl⟩ | rfl | ⟨lv, msg, rfl⟩ <;>
    simp [exportPath] at hp
  exact ⟨fmt, hfmt, hp.symm⟩

/-- With `protonate=False` the trace of `smiles_to_3d` is the trace of
`generate3d` on the unchanged input. -/
theorem smiles_to_3d_noproto_trace (env : Env) (s b : String) (n : Nat) (o : Bool)
    (pmin pmax : Rat) :
    (smiles_to_3d env s b n o false pmin pmax).1 = (generate3d env s b n o).1 := rfl

/-- With `protonate=False` the returned triple is the `generate3d` outcome
together with the singleton variant list. -/
theorem smiles_to_3d_noproto_result (env : Env) (s b : String) (n : Nat) (o : Bool)
    (pmin pmax : Rat) :
    (smiles_to_3d env s b n o false pmin pmax).2 =
      ((generate3d env s b n o).2.1, (generate3d env s b n o).2.2, some [s]) := rfl

theorem batch_foldl_eq (env : Env) (outdir : String) (rm : Option env.Mol)
    (ftype : String) (radius bits : Nat) (prot : Bool) (pmin pmax : Rat) (n : Nat) :
    ∀ (l : List (Nat × String)) (init : List Event),
    l.foldl (fun tr p => tr ++ batchLine env outdir rm ftype radius bits prot
      pmin pmax n p.1 p.2) init =
      init ++ (l.map (fun p => batchLine env outdir rm ftype radius bits prot
        pmin pmax n p.1 p.2)).flatten := by
  intro l
  induction l with
  | nil => intro init; simp
  | cons a t ih =>
    intro init
    rw [List.foldl_cons, ih]
    simp [List.append_assoc]

/-- `batch_process` decomposed: setup, one independent chunk per enumerated
line, close. -/
theorem batch_process_eq (env : Env) (ls : List String) (outdir : String)
    (ref : Option Smiles) (ftype : String) (radius bits : Nat) (prot : Bool)
    (pmin pmax : Rat) (n : Nat) :
    batch_process env ls outdir ref ftype radius bits prot pmin pmax n =
      (refMolOf env ref).1 ++
      (if prot then [Event.protonationHeaderEv] else []) ++
      (batchChunks env outdir (refMolOf env ref).2 ftype radius bits prot
        pmin pmax n ls).flatten ++
      (if prot then [Event.printEv "protonation_saved"] else []) := by
  simp only [batch_process, batchChunks]
  rw [batch_foldl_eq]
  simp [List.append_assoc]

/-! ### Phase bounds of each pipeline segment, under `codePhase` -/

theorem ph_protonate_smiles (env : Env) (s : Smiles) (pmin pmax prec : Rat)
    (mv : Nat) : PhasesIn (protonate_smiles env s pmin pmax prec mv).1 0 0 := by
  refine phasesIn_of_const 0 0 0 ?_ le_rfl le_rfl
  intro ev h
  rcases protonate_smiles_shape env s pmin pmax prec mv ev h with rfl | rfl
  · exact Or.inl rfl
  · exact Or.inl rfl

theorem ph_optimizeConfs (env : Env) (m : env.Mol) (s : Smiles) :
    PhasesIn (optimizeConfs env m s).1 3 3 := by
  refine phasesIn_of_const 3 3 3 ?_ le_rfl le_rfl
  intro ev h
  rcases optimizeConfs_shape env m s ev h with ⟨c, rfl⟩ | ⟨msg, rfl⟩
  · exact Or.inl rfl
  · exact Or.inr rfl

theorem ph_writeFormats (env : Env) (ob : env.OBMol) (b : String) :
    PhasesIn (writeFormats env ob b) 4 4 := by
  refine phasesIn_of_const 4 4 4 ?_ le_rfl le_rfl
  intro ev h
  rcases writeFormats_shape env ob b ev h with ⟨fmt, _, rfl⟩ | ⟨msg, rfl⟩
  · exact Or.inl rfl
  · exact Or.inr rfl

theorem ph_calcProperties (env : Env) (m : env.Mol) :
    PhasesIn (calcProperties env m).1 5 5 := by
  refine phasesIn_of_const 5 5 5 ?_ le_rfl le_rfl
  intro ev h
  rcases calcProperties_shape env m ev h with rfl | rfl
  · exact Or.inl rfl
  · exact Or.inr rfl

theorem ph_exportAndProps (env : Env) (b : String) (m : env.Mol) :
    PhasesIn (exportAndProps env b m).1 4 5 := by
  rcases hc : convertToOB env m with e | ob
  · have htr : (exportAndProps env b m).1 =
        [Event.convertEv, Event.logEv "error" "OpenBabel conversion failed"] := by
      simp [exportAndProps, hc]
    rw [htr]
    refine phasesIn_of_const 4 4 5 ?_ le_rfl (by omega)
    intro ev h
    simp at h
    rcases h with rfl | rfl
    · exact Or.inl rfl
    · exact Or.inr rfl
  · have htr : (exportAndProps env b m).1 =
        [Event.convertEv, Event.mkdirEv b] ++
          (writeFormats env ob b ++ (calcProperties env m).1) := by
      simp [exportAndProps, hc]
    rw [htr]
    have hcm : PhasesIn [Event.convertEv, Event.mkdirEv b] 4 4 := by
      refine phasesIn_of_const 4 4 4 ?_ le_rfl le_rfl
      intro ev h
      simp at h
      rcases h with rfl | rfl
      · exact Or.inl rfl
      · exact Or.inl rfl
    have hwc : PhasesIn (writeFormats env ob b ++ (calcProperties env m).1) 4 5 :=
      phasesIn_append (ph_writeFormats env ob b) (ph_calcProperties env m)
        (by omega) (by omega) (by omega)
    exact phasesIn_append hcm hwc (by omega) (by omega) (by omega)

theorem ph_generate3d (env : Env) (s b : String) (n : Nat) (o : Bool) :
    PhasesIn (generate3d env s b n o).1 1 5 := by
  have hparse : PhasesIn [Event.parseEv s] 1 1 := by
    refine phasesIn_of_const 1 1 1 ?_ le_rfl le_rfl
    intro ev h
    simp at h
    rw [h]
    exact Or.inl rfl
  have hembed : PhasesIn [Event.embedEv n 42 true] 2 2 := by
    refine phasesIn_of_const 2 2 2 ?_ le_rfl le_rfl
    intro ev h
    simp at h
    rw [h]
    exact Or.inl rfl
  rcases hp : env.molFromSmiles s with _ | m
  · have hlog : PhasesIn [Event.logEv "error" ("Invalid SMILES: " ++ s)] 5 5 := by
      refine phasesIn_of_const 5 5 5 ?_ le_rfl le_rfl
      intro ev h
      simp at h
      rw [h]
      exact Or.inr rfl
    have htr : (generate3d env s b n o).1 =
        [Event.parseEv s] ++ [Event.logEv "error" ("Invalid SMILES: " ++ s)] := by
      simp [generate3d, hp]
    rw [htr]
    exact phasesIn_append hparse hlog (by omega) (by omega) (by omega)
  · rcases he : env.embedMultipleConfs (env.addHs m) n 42 true with e | mol2
    · have htail : PhasesIn [Event.embedEv n 42 true,
          Event.logEv "error" ("Conformer generation failed for " ++ s)] 2 5 := by
        refine phasesIn_of_const 2 2 5 ?_ le_rfl (by omega)
        intro ev h
        simp at h
        rcases h with rfl | rfl
        · exact Or.inl rfl
        · exact Or.inr rfl
      have htr : (generate3d env s b n o).1 =
          [Event.parseEv s] ++ [Event.embedEv n 42 true,
            Event.logEv "error" ("Conformer generation failed for " ++ s)] := by
        simp [generate3d, hp, he]
      rw [htr]
      exact phasesIn_append hparse htail (by omega) (by omega) (by omega)
    · cases o with
      | false =>
        have h2 : PhasesIn ([Event.embedEv n 42 true] ++
            (exportAndProps env b mol2).1) 2 5 :=
          phasesIn_append hembed (ph_exportAndProps env b mol2)
            (by omega) (by omega) (by omega)
        have h3 : PhasesIn ([Event.parseEv s] ++ ([Event.embedEv n 42 true] ++
            (exportAndProps env b mol2).1)) 1 5 :=
          phasesIn_append hparse h2 (by omega) (by omega) (by omega)
        have htr : (generate3d env s b n false).1 =
            [Event.parseEv s] ++ ([Event.embedEv n 42 true] ++
              (exportAndProps env b mol2).1) := by
          simp [generate3d, hp, he]
        rw [htr]
        exact h3
      | true =>
        have h1 : PhasesIn ((optimizeConfs env mol2 s).1 ++
            (exportAndProps env b (optimizeConfs env mol2 s).2).1) 3 5 :=
          phasesIn_append (ph_optimizeConfs env mol2 s)
            (ph_exportAndProps env b (optimizeConfs env mol2 s).2)
            (by omega) (by omega) (by omega)
        have h2 : PhasesIn ([Event.embedEv n 42 true] ++
            ((optimizeConfs env mol2 s).1 ++
              (exportAndProps env b (optimizeConfs env mol2 s).2).1)) 2 5 :=
          phasesIn_append hembed h1 (by omega) (by omega) (by omega)
        have h3 : PhasesIn ([Event.parseEv s] ++ ([Event.embedEv n 42 true] ++
            ((optimizeConfs env mol2 s).1 ++
              (exportAndProps env b (optimizeConfs env mol2 s).2).1))) 1 5 :=
          phasesIn_append hparse h2 (by omega) (by omega) (by omega)
        have htr : (generate3d env s b n true).1 =
            [Event.parseEv s] ++ ([Event.embedEv n 42 true] ++
              ((optimizeConfs env mol2 s).1 ++
                (exportAndProps env b (optimizeConfs env mol2 s).2).1)) := by
          simp [generate3d, hp, he]
        rw [htr]
        exact h3

theorem ph_smiles_to_3d (env : Env) (s b : String) (n : Nat) (o pr : Bool)
    (pmin pmax : Rat) : PhasesIn (smiles_to_3d env s b n o pr pmin pmax).1 0 5 := by
  have hpre : ∀ (x : List Smiles),
      PhasesIn (Event.printEv "variant_summary" ::
        List.map (fun _ => Event.printEv "variant") x) 0 0 := by
    intro x
    refine phasesIn_of_const 0 0 0 ?_ le_rfl le_rfl
    intro ev h
    simp only [List.mem_cons, List.mem_map] at h
    rcases h with rfl | ⟨_, _, rfl⟩
    · exact Or.inl rfl
    · exact Or.inl rfl
  cases pr with
  | false =>
    rw [smiles_to_3d_noproto_trace]
    exact phasesIn_mono (ph_generate3d env s b n o) (by omega) le_rfl
  | true =>
    rcases hv : (protonate_smiles env s pmin pmax 1 128).2 with _ | ⟨v, rest⟩
    · have hlog : PhasesIn [Event.logEv "error" ("Error processing " ++ s)] 5 5 := by
        refine phasesIn_of_const 5 5 5 ?_ le_rfl le_rfl
        intro ev h
        simp at h
        rw [h]
        exact Or.inr rfl
      have h1 : PhasesIn ((Event.printEv "variant_summary" ::
          List.map (fun _ => Event.printEv "variant") ([] : List Smiles)) ++
          [Event.logEv "error" ("Error processing " ++ s)]) 0 5 :=
        phasesIn_append (hpre []) hlog (by omega) (by omega) (by omega)
      have h2 : PhasesIn ((protonate_smiles env s pmin pmax 1 128).1 ++
          ((Event.printEv "variant_summary" ::
            List.map (fun _ => Event.printEv "variant") ([] : List Smiles)) ++
            [Event.logEv "error" ("Error processing " ++ s)])) 0 5 :=
        phasesIn_append (ph_protonate_smiles env s pmin pmax 1 128) h1
          (by omega) (by omega) (by omega)
      have htr : (smiles_to_3d env s b n o true pmin pmax).1 =
          (protonate_smiles env s pmin pmax 1 128).1 ++
            ((Event.printEv "variant_summary" ::
              List.map (fun _ => Event.printEv "variant") ([] : List Smiles)) ++
              [Event.logEv "error" ("Error processing " ++ s)]) := by
        simp [smiles_to_3d, hv, List.append_assoc]
      rw [htr]
      exact h2
    · have hif : PhasesIn (if rest.isEmpty then ([] : List Event)
          else [Event.printEv "using_first_variant"]) 0 0 := by
        rcases hre : rest.isEmpty with _ | _ <;> try simp only [hre]
        · simp only [Bool.false_eq_true, if_false]
          refine phasesIn_of_const 0 0 0 ?_ le_rfl le_rfl
          intro ev h
          simp at h
          rw [h]
          exact Or.inl rfl
        · simp only [if_true]
          exact phasesIn_nil 0 0
      have h1 : PhasesIn ((if rest.isEmpty then ([] : List Event)
          else [Event.printEv "using_first_variant"]) ++
          (generate3d env v b n o).1) 0 5 :=
        phasesIn_append hif (ph_generate3d env v b n o)
          (by omega) (by omega) (by omega)
      have h2 : PhasesIn ((Event.printEv "variant_summary" ::
          List.map (fun _ => Event.printEv "variant") (v :: rest)) ++
          ((if rest.isEmpty then ([] : List Event)
            else [Event.printEv "using_first_variant"]) ++
            (generate3d env v b n o).1)) 0 5 :=
        phasesIn_append (hpre (v :: rest)) h1 (by omega) (by omega) (by omega)
      have h3 : PhasesIn ((protonate_smiles env s pmin pmax 1 128).1 ++
          ((Event.printEv "variant_summary" ::
            List.map (fun _ => Event.printEv "variant") (v :: rest)) ++
            ((if rest.isEmpty then ([] : List Event)
              else [Event.printEv "using_first_variant"]) ++
              (generate3d env v b n o).1))) 0 5 :=
        phasesIn_append (ph_protonate_smiles env s pmin pmax 1 128) h2
          (by omega) (by omega) (by omega)
      have htr : (smiles_to_3d env s b n o true pmin pmax).1 =
          (protonate_smiles env s pmin pmax 1 128).1 ++
            ((Event.printEv "variant_summary" ::
              List.map (fun _ => Event.printEv "variant") (v :: rest)) ++
              ((if rest.isEmpty then ([] : List Event)
                else [Event.printEv "using_first_variant"]) ++
                (generate3d env v b n o).1)) := by
        simp [smiles_to_3d, hv, List.append_assoc]
      rw [htr]
      exact h3

theorem ph_tanimoto (env : Env) (m1 m2 : Option env.Mol) (f : String)
    (radius nb : Nat) :
    PhasesIn (calculate_tanimoto_similarity env m1 m2 f radius nb).1 7 7 := by
  refine phasesIn_of_const 7 7 7 ?_ le_rfl le_rfl
  intro ev h
  rcases m1 with _ | x <;> rcases m2 with _ | y <;>
    simp only [calculate_tanimoto_similarity] at h
  · simp at h; rw [h]; exact Or.inr rfl
  · simp at h; rw [h]; exact Or.inr rfl
  · simp at h; rw [h]; exact Or.inr rfl
  · split at h <;> (simp at h; rw [h]; exact Or.inl rfl)

theorem ph_simOutput (env : Env) (mol : Option env.Mol) (rm : env.Mol)
    (f : String) (radius nb : Nat) :
    PhasesIn (simOutput env mol rm f radius nb) 7 8 := by
  have hsim : PhasesIn (if (calculate_tanimoto_similarity env mol (some rm)
      f radius nb).2.isSome then [Event.printEv "similarity"] else []) 8 8 := by
    rcases hs : (calculate_tanimoto_similarity env mol (some rm)
        f radius nb).2.isSome with _ | _ <;> try simp only [hs]
    · simp only [Bool.false_eq_true, if_false]
      exact phasesIn_nil 8 8
    · simp only [if_true]
      refine phasesIn_of_const 8 8 8 ?_ le_rfl le_rfl
      intro ev h
      simp at h
      rw [h]
      exact Or.inl rfl
  exact phasesIn_append (ph_tanimoto env mol (some rm) f radius nb) hsim
    (by omega) (by omega) (by omega)

theorem ph_refOutput (env : Env) (mol : Option env.Mol) (ref : Option Smiles)
    (f : String) (radius nb : Nat) :
    PhasesIn (refOutput env mol ref f radius nb) 7 8 := by
  have hparseRef : ∀ r, PhasesIn [Event.parseRefEv r] 7 7 := by
    intro r
    refine phasesIn_of_const 7 7 7 ?_ le_rfl le_rfl
    intro ev h
    simp at h
    rw [h]
    exact Or.inl rfl
  rcases ref with _ | r
  · exact phasesIn_nil 7 8
  · unfold refOutput
    rcases hr : r == "" with _ | _ <;> try simp only [hr]
    · simp only [Bool.false_eq_true, if_false]
      rcases hm : env.molFromSmiles r with _ | rm <;> try simp only [hm]
      · have hinv : PhasesIn [Event.printEv "invalid_reference"] 8 8 := by
          refine phasesIn_of_const 8 8 8 ?_ le_rfl le_rfl
          intro ev h
          simp at h
          rw [h]
          exact Or.inl rfl
        exact phasesIn_append (hparseRef r) hinv (by omega) (by omega) (by omega)
      · exact phasesIn_append (hparseRef r) (ph_simOutput env mol rm f radius nb)
          (by omega) (by omega) (by omega)
    · simp only [if_true]
      exact phasesIn_nil 7 8

theorem ph_singleOutput (env : Env) (mol : Option env.Mol)
    (props : Option (Props env.Val)) (variants : Option (List Smiles))
    (ref : Option Smiles) (ftype : String) (radius nb : Nat) (prot : Bool) :
    PhasesIn (singleOutput env mol props variants ref ftype radius nb prot) 6 8 := by
  have hmolprints : PhasesIn ([Event.printEv "generated_files",
      Event.printEv "properties"]) 6 6 := by
    refine phasesIn_of_const 6 6 6 ?_ le_rfl le_rfl
    intro ev h
    simp at h
    rcases h with rfl | rfl
    · exact Or.inl rfl
    · exact Or.inl rfl
  have hproto : PhasesIn (if prot && variantsTruthy variants then
      Event.printEv "protonation_header" ::
        (variants.getD []).map (fun _ => Event.printEv "protonation_state")
      else []) 6 6 := by
    rcases hb : prot && variantsTruthy variants with _ | _ <;> try simp only [hb]
    · simp only [Bool.false_eq_true, if_false]
      exact phasesIn_nil 6 6
    · simp only [if_true]
      refine phasesIn_of_const 6 6 6 ?_ le_rfl le_rfl
      intro ev h
      simp only [List.mem_cons, List.mem_map] at h
      rcases h with rfl | ⟨_, _, rfl⟩
      · exact Or.inl rfl
      · exact Or.inl rfl
  unfold singleOutput
  rcases hps : propsTruthy props with _ | _ <;> try simp only [hps]
  · simp only [Bool.false_eq_true, if_false]
    exact phasesIn_nil 6 8
  · simp only [if_true]
    have h1 : PhasesIn ([Event.printEv "generated_files",
        Event.printEv "properties"] ++
        (if prot && variantsTruthy variants then
          Event.printEv "protonation_header" ::
            (variants.getD []).map (fun _ => Event.printEv "protonation_state")
          else [])) 6 6 :=
      phasesIn_append hmolprints hproto (by omega) (by omega) (by omega)
    exact phasesIn_append h1 (ph_refOutput env mol ref ftype radius nb)
      (by omega) (by omega) (by omega)

/-! ### More trace computations used by the claims -/

theorem filter_map_nil {α : Type _} (q : Event → Bool) (f : α → Event)
    (hq : ∀ a, q (f a) = false) (l : List α) : (l.map f).filter q = [] := by
  induction l with
  | nil => rfl
  | cons a l ih => simp [List.filter_cons, hq, ih]

theorem filter_printMap_nil (q : Event → Bool) (hq : ∀ t, q (Event.printEv t) = false)
    (l : List Smiles) (t : String) :
    (l.map (fun _ => Event.printEv t)).filter q = [] :=
  filter_map_nil q (fun _ => Event.printEv t) (fun _ => hq t) l

theorem filter_protLineMap_nil (q : Event → Bool)
    (hq : ∀ a c, q (Event.protonationLineEv a c) = false) (l : List Smiles)
    (s : Smiles) :
    (l.map (fun v => Event.protonationLineEv s v)).filter q = [] :=
  filter_map_nil q (fun v => Event.protonationLineEv s v) (fun a => hq s a) l

theorem filter_flatten_nil (q : Event → Bool) :
    ∀ (L : List (List Event)), (∀ l ∈ L, l.filter q = []) →
    L.flatten.filter q = [] := by
  intro L
  induction L with
  | nil => intro _; rfl
  | cons l t ih =>
    intro h
    rw [List.flatten_cons, List.filter_append, h l (by simp),
      ih (fun x hx => h x (List.mem_cons_of_mem l hx))]
    rfl

theorem tanimoto_shape (env : Env) (m1 m2 : Option env.Mol) (f : String)
    (radius nb : Nat) : ∀ ev ∈ (calculate_tanimoto_similarity env m1 m2 f radius nb).1,
    (∃ t, ev = Event.similarityEv t) ∨ ∃ lv msg, ev = Event.logEv lv msg := by
  intro ev h
  rcases m1 with _ | x <;> rcases m2 with _ | y <;>
    simp only [calculate_tanimoto_similarity] at h
  · simp at h; exact Or.inr ⟨_, _, h⟩
  · simp at h; exact Or.inr ⟨_, _, h⟩
  · simp at h; exact Or.inr ⟨_, _, h⟩
  · split at h <;> (simp at h; exact Or.inl ⟨_, h⟩)

theorem simOutput_shape (env : Env) (mol : Option env.Mol) (rm : env.Mol)
    (f : String) (radius nb : Nat) : ∀ ev ∈ simOutput env mol rm f radius nb,
    (∃ t, ev = Event.similarityEv t) ∨ (∃ t, ev = Event.printEv t) ∨
      ∃ lv msg, ev = Event.logEv lv msg := by
  intro ev h
  unfold simOutput at h
  rw [List.mem_append] at h
  rcases h with h | h
  · rcases tanimoto_shape env mol (some rm) f radius nb ev h with ⟨t, rfl⟩ | h'
    · exact Or.inl ⟨t, rfl⟩
    · exact Or.inr (Or.inr h')
  · rcases hs : (calculate_tanimoto_similarity env mol (some rm) f radius nb).2.isSome with
      _ | _ <;> rw [hs] at h
    · simp at h
    · simp at h
      exact Or.inr (Or.inl ⟨_, h⟩)

theorem batchOutput_shape (env : Env) (mol : Option env.Mol)
    (props : Option (Props env.Val)) (variants : Option (List Smiles))
    (smiles : Smiles) (rm : Option env.Mol) (f : String) (radius nb : Nat)
    (prot : Bool) : ∀ ev ∈ batchOutput env mol props variants smiles rm f radius nb prot,
    (∃ t, ev = Event.printEv t) ∨ (∃ a c, ev = Event.protonationLineEv a c) ∨
    (∃ t, ev = Event.similarityEv t) ∨ ∃ lv msg, ev = Event.logEv lv msg := by
  intro ev h
  unfold batchOutput at h
  rcases hps : propsTruthy props with _ | _ <;> rw [hps] at h
  · simp at h
  · simp only [if_true, List.mem_append, List.mem_cons, List.not_mem_nil] at h
    rcases h with ((h | h | h) | h) | h
    · exact Or.inl ⟨_, h⟩
    · exact Or.inl ⟨_, h⟩
    · simp at h
    · rcases hb : prot && variantsTruthy variants with _ | _ <;> rw [hb] at h
      · simp at h
      · simp only [if_true, List.mem_map] at h
        obtain ⟨a, _, rfl⟩ := h
        exact Or.inr (Or.inl ⟨_, _, rfl⟩)
    · rcases rm with _ | rmol
      · simp at h
      · rcases simOutput_shape env mol rmol f radius nb ev h with h' | h' | h'
        · exact Or.inr (Or.inr (Or.inl h'))
        · exact Or.inl h'
        · exact Or.inr (Or.inr (Or.inr h'))

theorem batchOutput_exportPath (env : Env) (mol : Option env.Mol)
    (props : Option (Props env.Val)) (variants : Option (List Smiles))
    (smiles : Smiles) (rm : Option env.Mol) (f : String) (radius nb : Nat)
    (prot : Bool) :
    (batchOutput env mol props variants smiles rm f radius nb prot).filterMap
      exportPath = [] := by
  rw [List.filterMap_eq_nil_iff]
  intro ev h
  rcases batchOutput_shape env mol props variants smiles rm f radius nb prot ev h with
    ⟨t, rfl⟩ | ⟨a, c, rfl⟩ | ⟨t, rfl⟩ | ⟨lv, msg, rfl⟩ <;> rfl

theorem batchOutput_none_no_similarity (env : Env) (mol : Option env.Mol)
    (props : Option (Props env.Val)) (variants : Option (List Smiles))
    (smiles : Smiles) (f : String) (radius nb : Nat) (prot : Bool) :
    (batchOutput env mol props variants smiles none f radius nb prot).filter
      isSimilarityEv = [] := by
  unfold batchOutput
  rcases hps : propsTruthy props with _ | _ <;> try simp only [hps]
  · simp
  · rcases hb : prot && variantsTruthy variants with _ | _ <;> try simp only [hb]
    · simp [List.filter_append, List.filter_cons, isSimilarityEv]
    · simp [List.filter_append, List.filter_cons, isSimilarityEv,
        filter_protLineMap_nil isSimilarityEv (fun _ _ => rfl)]

/-- `refOutput` is empty when no reference SMILES was supplied. -/
theorem refOutput_none (env : Env) (mol : Option env.Mol) (f : String)
    (radius nb : Nat) : refOutput env mol none f radius nb = [] := rfl

theorem singleOutput_none_no_similarity (env : Env) (mol : Option env.Mol)
    (props : Option (Props env.Val)) (variants : Option (List Smiles))
    (f : String) (radius nb : Nat) (prot : Bool) :
    (singleOutput env mol props variants none f radius nb prot).filter
      isSimilarityEv = [] := by
  unfold singleOutput
  rw [refOutput_none]
  rcases hps : propsTruthy props with _ | _ <;> try simp only [hps]
  · simp
  · rcases hb : prot && variantsTruthy variants with _ | _ <;> try simp only [hb]
    · simp [List.filter_append, List.filter_cons, isSimilarityEv]
    · simp [List.filter_append, List.filter_cons, isSimilarityEv,
        filter_printMap_nil isSimilarityEv (fun _ => rfl)]

theorem exportAndProps_no_opt (env : Env) (b : String) (m : env.Mol) :
    (exportAndProps env b m).1.filter isOptimizeEv = [] := by
  rw [List.filter_eq_nil_iff]
  intro ev h
  rcases exportAndProps_shape env b m ev h with rfl | rfl | ⟨fmt, _, rfl⟩ | rfl |
    ⟨lv, msg, rfl⟩ <;> simp [isOptimizeEv]

theorem generate3d_no_opt (env : Env) (s b : String) (n : Nat) :
    (generate3d env s b n false).1.filter isOptimizeEv = [] := by
  rcases hp : env.molFromSmiles s with _ | m
  · simp [generate3d, hp, List.filter_cons, isOptimizeEv]
  · rcases he : env.embedMultipleConfs (env.addHs m) n 42 true with e | mol2
    · simp [generate3d, hp, he, List.filter_cons, isOptimizeEv]
    · simp [generate3d, hp, he, List.filter_cons, List.filter_append,
        isOptimizeEv, exportAndProps_no_opt]

theorem smiles_to_3d_no_opt (env : Env) (s b : String) (n : Nat) (prot : Bool)
    (pmin pmax : Rat) :
    (smiles_to_3d env s b n false prot pmin pmax).1.filter isOptimizeEv = [] := by
  have hpf : (protonate_smiles env s pmin pmax 1 128).1.filter isOptimizeEv = [] := by
    rw [List.filter_eq_nil_iff]
    intro ev h
    rcases protonate_smiles_shape env s pmin pmax 1 128 ev h with rfl | rfl <;>
      simp [isOptimizeEv]
  cases prot with
  | false =>
    rw [smiles_to_3d_noproto_trace]
    exact generate3d_no_opt env s b n
  | true =>
    rcases hv : (protonate_smiles env s pmin pmax 1 128).2 with _ | ⟨v, rest⟩
    · simp [smiles_to_3d, hv, List.filter_append, List.filter_cons, hpf,
        isOptimizeEv, filter_printMap_nil isOptimizeEv (fun _ => rfl)]
    · rcases hre : rest.isEmpty with _ | _ <;>
        simp [smiles_to_3d, hv, hre, List.filter_append, List.filter_cons, hpf,
          isOptimizeEv, filter_printMap_nil isOptimizeEv (fun _ => rfl),
          generate3d_no_opt]

/-- The non-`print` events of the `protonate_smiles` step are exactly the
library call itself. -/
theorem protonate_smiles_filter_notPrint (env : Env) (s : Smiles)
    (pmin pmax prec : Rat) (mv : Nat) :
    (protonate_smiles env s pmin pmax prec mv).1.filter notPrintEv =
      [Event.protonateEv s] := by
  unfold protonate_smiles
  split <;> simp [List.filter_cons, notPrintEv, isPrintEv]

/-- The `protonate_smiles` step performs no `MolFromSmiles` parse of its
own. -/
theorem protonate_smiles_parseArg (env : Env) (s : Smiles) (pmin pmax prec : Rat)
    (mv : Nat) :
    (protonate_smiles env s pmin pmax prec mv).1.filterMap parseArg = [] := by
  rw [List.filterMap_eq_nil_iff]
  intro ev h
  rcases protonate_smiles_shape env s pmin pmax prec mv ev h with rfl | rfl <;> rfl

theorem ph_batchOutput (env : Env) (mol : Option env.Mol)
    (props : Option (Props env.Val)) (variants : Option (List Smiles))
    (smiles : Smiles) (rm : Option env.Mol) (ftype : String) (radius nb : Nat)
    (prot : Bool) :
    PhasesIn (batchOutput env mol props variants smiles rm ftype radius nb prot) 6 8 := by
  have hmolprints : PhasesIn ([Event.printEv "processed",
      Event.printEv "properties"]) 6 6 := by
    refine phasesIn_of_const 6 6 6 ?_ le_rfl le_rfl
    intro ev h
    simp at h
    rcases h with rfl | rfl
    · exact Or.inl rfl
    · exact Or.inl rfl
  have hproto : PhasesIn (if prot && variantsTruthy variants then
      (variants.getD []).map (fun v => Event.protonationLineEv smiles v)
      else []) 6 6 := by
    rcases hb : prot && variantsTruthy variants with _ | _ <;> try simp only [hb]
    · simp only [Bool.false_eq_true, if_false]
      exact phasesIn_nil 6 6
    · simp only [if_true]
      refine phasesIn_of_const 6 6 6 ?_ le_rfl le_rfl
      intro ev h
      simp only [List.mem_map] at h
      obtain ⟨_, _, rfl⟩ := h
      exact Or.inr rfl
  have hsim : PhasesIn (match rm with
      | some rmol => simOutput env mol rmol ftype radius nb
      | none => []) 7 8 := by
    rcases rm with _ | rmol
    · exact phasesIn_nil 7 8
    · exact ph_simOutput env mol rmol ftype radius nb
  unfold batchOutput
  rcases hps : propsTruthy props with _ | _ <;> try simp only [hps]
  · simp only [Bool.false_eq_true, if_false]
    exact phasesIn_nil 6 8
  · simp only [if_true]
    have h1 : PhasesIn ([Event.printEv "processed", Event.printEv "properties"] ++
        (if prot && variantsTruthy variants then
          (variants.getD []).map (fun v => Event.protonationLineEv smiles v)
          else [])) 6 6 :=
      phasesIn_append hmolprints hproto (by omega) (by omega) (by omega)
    exact phasesIn_append h1 hsim (by omega) (by omega) (by omega)

theorem ph_batchLine (env : Env) (outdir : String) (rm : Option env.Mol)
    (ftype : String) (radius bits : Nat) (prot : Bool) (pmin pmax : Rat)
    (n i : Nat) (line : String) :
    PhasesIn (batchLine env outdir rm ftype radius bits prot pmin pmax n i line) 0 8 := by
  unfold batchLine
  rcases hb : pyStrip line == "" with _ | _ <;> try simp only [hb]
  · simp only [Bool.false_eq_true, if_false]
    exact phasesIn_append
      (ph_smiles_to_3d env (pyStrip line) (outdir ++ "/mol_" ++ toString (i + 1))
        n true prot pmin pmax)
      (ph_batchOutput env _ _ _ (pyStrip line) rm ftype radius bits prot)
      (by omega) (by omega) (by omega)
  · simp only [if_true]
    exact phasesIn_nil 0 8

/-! ### The claims -/

/-- C3: protonation-state variants are produced only when protonation is
requested: with `protonate=False`, `smiles_to_3d` returns exactly the
singleton variant list `[smiles]`, makes no protonation-library call, and the
only SMILES it ever parses for 3D generation is the unchanged input. -/
theorem c3_no_protonation (env : Env) (s b : String) (n : Nat) (o : Bool)
    (pmin pmax : Rat) :
    (smiles_to_3d env s b n o false pmin pmax).2.2.2 = some [s] ∧
    (smiles_to_3d env s b n o false pmin pmax).1.filter isProtonateEv = [] ∧
    (smiles_to_3d env s b n o false pmin pmax).1.filterMap parseArg = [s] := by
  refine ⟨rfl, ?_, ?_⟩
  · rw [smiles_to_3d_noproto_trace]
    exact generate3d_no_protonate env s b n o
  · rw [smiles_to_3d_noproto_trace]
    exact generate3d_parseArg env s b n o

/-- C4: force-field optimization is optional: with `optimize=False` no
`MMFFOptimizeMolecule` call appears in the trace (whatever the other
options), and on the success path the conformers produced by embedding —
the molecule `m2` returned by `EmbedMultipleConfs` — are handed to the
export-and-descriptors stage unmodified. -/
theorem c4_optimize_skippable (env : Env) (s b : String) (n : Nat) (prot : Bool)
    (pmin pmax : Rat) (m m2 : env.Mol) :
    ((smiles_to_3d env s b n false prot pmin pmax).1.filter isOptimizeEv = []) ∧
    (env.molFromSmiles s = some m →
      env.embedMultipleConfs (env.addHs m) n 42 true = .ok m2 →
      smiles_to_3d env s b n false false pmin pmax =
        (Event.parseEv s :: Event.embedEv n 42 true :: (exportAndProps env b m2).1,
         ((exportAndProps env b m2).2.1, (exportAndProps env b m2).2.2, some [s]))) := by
  constructor
  · exact smiles_to_3d_no_opt env s b n prot pmin pmax
  · intro h1 h2
    simp [smiles_to_3d, generate3d, h1, h2]

/-- Witness for C4 at a concrete environment and input. -/
theorem c4_optimize_skippable_witness :
    smiles_to_3d envA "C" "o" 1 false false 7 8 =
      (Event.parseEv "C" :: Event.embedEv 1 42 true :: (exportAndProps envA "o" 3).1,
       ((exportAndProps envA "o" 3).2.1, (exportAndProps envA "o" 3).2.2, some ["C"])) :=
  (c4_optimize_skippable envA "C" "o" 1 false 7 8 1 3).2 rfl rfl

/-- C5: a Tanimoto similarity is computed only when a reference SMILES is
supplied: with `reference_smiles = None`, neither `batch_process` nor
`single_process` ever performs a similarity computation. -/
theorem c5_similarity_only_with_reference (env : Env) (ls : List String)
    (outdir s base ftype : String) (radius nb n nc : Nat) (prot : Bool)
    (pmin pmax : Rat) :
    (batch_process env ls outdir none ftype radius nb prot pmin pmax n).filter
      isSimilarityEv = [] ∧
    (single_process env s base nc none ftype radius nb prot pmin pmax).filter
      isSimilarityEv = [] := by
  constructor
  · rw [batch_process_eq]
    have hline : ∀ i line, (batchLine env outdir (refMolOf env none).2 ftype radius
        nb prot pmin pmax n i line).filter isSimilarityEv = [] := by
      intro i line
      unfold batchLine
      rcases hb : pyStrip line == "" with _ | _ <;> try simp only [hb]
      · simp only [Bool.false_eq_true, if_false, List.filter_append]
        rw [smiles_to_3d_no_similarity]
        have : (refMolOf env none).2 = none := rfl
        rw [this, batchOutput_none_no_similarity]
        rfl
      · simp
    have hflat : ((batchChunks env outdir (refMolOf env none).2 ftype radius nb prot
        pmin pmax n ls).flatten).filter isSimilarityEv = [] := by
      apply filter_flatten_nil
      intro l hl
      unfold batchChunks at hl
      rw [List.mem_map] at hl
      obtain ⟨p, _, rfl⟩ := hl
      exact hline p.1 p.2
    have hrm : (refMolOf env none).1 = [] := rfl
    rw [hrm]
    rcases prot with _ | _ <;>
      simp [List.filter_append, hflat, List.filter_cons, isSimilarityEv]
  · show ((smiles_to_3d env s base nc true prot pmin pmax).1 ++
      singleOutput env _ _ _ none ftype radius nb prot).filter isSimilarityEv = []
    rw [List.filter_append, smiles_to_3d_no_similarity,
      singleOutput_none_no_similarity]
    rfl

/-- C6: no state crosses invocations.  The embedding is a pure function of
the environment and the arguments, every `EmbedMultipleConfs` call in a
`smiles_to_3d` trace carries the fixed `randomSeed` 42, and `batch_process`
is exactly a per-line map: each enumerated line's chunk is a function of that
line and its index alone, so no line's outcome depends on the other lines. -/
theorem c6_no_retained_state (env : Env) (s b outdir ftype : String) (n : Nat)
    (o prot : Bool) (pmin pmax : Rat) (ls : List String) (ref : Option Smiles)
    (radius bits : Nat) :
    (((smiles_to_3d env s b n o prot pmin pmax).1.filterMap embedSeedArg).all
      (fun k => k == 42) = true) ∧
    (batch_process env ls outdir ref ftype radius bits prot pmin pmax n =
      (refMolOf env ref).1 ++
      (if prot then [Event.protonationHeaderEv] else []) ++
      (batchChunks env outdir (refMolOf env ref).2 ftype radius bits prot
        pmin pmax n ls).flatten ++
      (if prot then [Event.printEv "protonation_saved"] else [])) := by
  constructor
  · rw [List.all_eq_true]
    intro k hk
    have := smiles_to_3d_embed_seed env s b n o prot pmin pmax k hk
    simp [this]
  · exact batch_process_eq env ls outdir ref ftype radius bits prot pmin pmax n

/-- C7: `calculate_tanimoto_similarity` returns `None` exactly when one of
the two molecules is `None` (logging a warning); on two molecules it returns
the Tanimoto similarity of Morgan fingerprints when `fp_type == "morgan"`
and of RDKit fingerprints otherwise. -/
theorem c7_tanimoto_contract (env : Env) (oa obm : Option env.Mol)
    (m1 m2 : env.Mol) (ftype : String) (radius nb : Nat) :
    (calculate_tanimoto_similarity env none obm ftype radius nb =
      ([Event.logEv "warning"
        "One or both molecules are None, cannot calculate similarity."], none)) ∧
    (calculate_tanimoto_similarity env oa none ftype radius nb =
      ([Event.logEv "warning"
        "One or both molecules are None, cannot calculate similarity."], none)) ∧
    (calculate_tanimoto_similarity env (some m1) (some m2) ftype radius nb =
      (if ftype == "morgan" then
        ([Event.similarityEv "morgan"],
         some (env.tanimotoSimilarity
           (env.getMorganFingerprintAsBitVect m1 radius nb)
           (env.getMorganFingerprintAsBitVect m2 radius nb)))
       else
        ([Event.similarityEv ftype],
         some (env.tanimotoSimilarity (env.fingerprintMol m1)
           (env.fingerprintMol m2))))) ∧
    ((calculate_tanimoto_similarity env oa obm ftype radius nb).2 = none ↔
      oa = none ∨ obm = none) := by
  refine ⟨?_, ?_, rfl, ?_⟩
  · cases obm <;> rfl
  · cases oa <;> rfl
  · rcases oa with _ | x <;> rcases obm with _ | y <;>
      simp [calculate_tanimoto_similarity]
    split <;> simp

/-- C8: when the protonation library raises, `protonate_smiles` returns the
single-element list holding the original SMILES (after printing the error),
and a protonating `smiles_to_3d` run then proceeds to 3D-generate exactly the
unprotonated input. -/
theorem c8_protonation_fallback (env : Env) (s b : String) (pmin pmax prec : Rat)
    (mv n : Nat) (o : Bool) (e : String) :
    (env.protonateLib s pmin pmax prec mv = .error e →
      protonate_smiles env s pmin pmax prec mv =
        ([Event.protonateEv s, Event.printEv "protonation_error"], [s])) ∧
    (env.protonateLib s pmin pmax 1 128 = .error e →
      (smiles_to_3d env s b n o true pmin pmax).2.2.2 = some [s] ∧
      (smiles_to_3d env s b n o true pmin pmax).1.filterMap parseArg = [s]) := by
  constructor
  · intro h
    simp [protonate_smiles, h]
  · intro h
    have hps : protonate_smiles env s pmin pmax 1 128 =
        ([Event.protonateEv s, Event.printEv "protonation_error"], [s]) := by
      simp [protonate_smiles, h]
    constructor
    · simp [smiles_to_3d, hps]
    · simp [smiles_to_3d, hps, List.filterMap_append, List.filterMap_cons,
        parseArg, generate3d_parseArg]

/-- Witness for C8 at a concrete environment whose protonation library
raises. -/
theorem c8_protonation_fallback_witness :
    (protonate_smiles envErr "C" 7 8 1 128 =
      ([Event.protonateEv "C", Event.printEv "protonation_error"], ["C"])) ∧
    (smiles_to_3d envErr "C" "o" 1 true true 7 8).2.2.2 = some ["C"] ∧
    (smiles_to_3d envErr "C" "o" 1 true true 7 8).1.filterMap parseArg = ["C"] :=
  ⟨(c8_protonation_fallback envErr "C" "o" 7 8 1 128 1 true "dimorphite failure").1 rfl,
   (c8_protonation_fallback envErr "C" "o" 7 8 1 128 1 true "dimorphite failure").2 rfl⟩

/-- C9: when protonation yields the variants `v :: rest`, only the first
variant `v` drives 3D generation: the returned molecule and properties and
the entire non-`print` event trace are those of `generate3d` on `v` alone —
`rest` shows up only in the returned variant list (and in `print` output) —
and the one parse performed is of `v`. -/
theorem c9_first_variant_only (env : Env) (s b : String) (n : Nat) (o : Bool)
    (pmin pmax : Rat) (v : Smiles) (rest : List Smiles) :
    (protonate_smiles env s pmin pmax 1 128).2 = v :: rest →
    (smiles_to_3d env s b n o true pmin pmax).2.1 = (generate3d env v b n o).2.1 ∧
    (smiles_to_3d env s b n o true pmin pmax).2.2.1 = (generate3d env v b n o).2.2 ∧
    (smiles_to_3d env s b n o true pmin pmax).2.2.2 = some (v :: rest) ∧
    (smiles_to_3d env s b n o true pmin pmax).1.filter notPrintEv =
      Event.protonateEv s :: (generate3d env v b n o).1.filter notPrintEv ∧
    (smiles_to_3d env s b n o true pmin pmax).1.filterMap parseArg = [v] := by
  intro hv
  refine ⟨?_, ?_, ?_, ?_, ?_⟩
  · simp [smiles_to_3d, hv]
  · simp [smiles_to_3d, hv]
  · simp [smiles_to_3d, hv]
  · rcases hre : rest.isEmpty with _ | _ <;>
      simp [smiles_to_3d, hv, hre, List.filter_append, List.filter_cons,
        protonate_smiles_filter_notPrint, notPrintEv, isPrintEv,
        filter_printMap_nil notPrintEv (fun _ => rfl)]
  · rcases hre : rest.isEmpty with _ | _ <;>
      simp [smiles_to_3d, hv, hre, List.filterMap_append, List.filterMap_cons,
        parseArg, generate3d_parseArg, protonate_smiles_parseArg]

/-- Witness for C9 at a concrete environment that yields two variants. -/
theorem c9_first_variant_only_witness :
    (smiles_to_3d envA "C" "o" 1 true true 7 8).2.1 =
      (generate3d envA "C" "o" 1 true).2.1 ∧
    (smiles_to_3d envA "C" "o" 1 true true 7 8).2.2.1 =
      (generate3d envA "C" "o" 1 true).2.2 ∧
    (smiles_to_3d envA "C" "o" 1 true true 7 8).2.2.2 = some ["C", "C"] ∧
    (smiles_to_3d envA "C" "o" 1 true true 7 8).1.filter notPrintEv =
      Event.protonateEv "C" :: (generate3d envA "C" "o" 1 true).1.filter notPrintEv ∧
    (smiles_to_3d envA "C" "o" 1 true true 7 8).1.filterMap parseArg = ["C"] :=
  c9_first_variant_only envA "C" "o" 1 true 7 8 "C" ["C"] rfl

/-- C10: in `batch_process`, the chunk for the line at 0-based index `i` is
`batchLine` applied to that line and index; a blank line contributes nothing
(but the enumeration still counts it), and every output file a non-blank line
writes has the base name `output_dir/mol_(i+1)` — the 1-based position among
all lines of the file, not among the non-empty ones. -/
theorem c10_batch_line_numbering (env : Env) (outdir : String)
    (rm : Option env.Mol) (ftype : String) (radius bits : Nat) (prot : Bool)
    (pmin pmax : Rat) (n : Nat) (ls : List String) (i : Nat) (line : String) :
    ls[i]? = some line →
    ((batchChunks env outdir rm ftype radius bits prot pmin pmax n ls)[i]? =
      some (batchLine env outdir rm ftype radius bits prot pmin pmax n i line)) ∧
    (pyStrip line = "" →
      batchLine env outdir rm ftype radius bits prot pmin pmax n i line = []) ∧
    (∀ p ∈ (batchLine env outdir rm ftype radius bits prot pmin pmax n i
        line).filterMap exportPath,
      ∃ fmt, fmt ∈ fmts ∧ p = outdir ++ "/mol_" ++ toString (i + 1) ++ "." ++ fmt) := by
  intro h
  refine ⟨?_, ?_, ?_⟩
  · unfold batchChunks
    rw [List.getElem?_map, List.getElem?_enum, h]
    rfl
  · intro hblank
    unfold batchLine
    simp [hblank]
  · intro p hp
    simp only [batchLine] at hp
    rcases hb : pyStrip line == "" with _ | _ <;> rw [hb] at hp
    · simp only [Bool.false_eq_true, if_false, List.filterMap_append,
        List.mem_append] at hp
      rcases hp with hp | hp
      · exact smiles_to_3d_exports env (pyStrip line)
          (outdir ++ "/mol_" ++ toString (i + 1)) n true prot pmin pmax p hp
      · rw [batchOutput_exportPath] at hp
        cases hp
    · simp at hp

/-- Witness for C10: in the file `["C", "", "N"]` the line `"N"` is the
second non-empty line but the third line, and its chunk writes under
`out/mol_3`. -/
theorem c10_batch_line_numbering_witness :
    ((batchChunks envA "out" none "m" 2 8 false 7 8 1 ["C", "", "N"])[2]? =
      some (batchLine envA "out" none "m" 2 8 false 7 8 1 2 "N")) ∧
    (batchLine envA "out" none "m" 2 8 false 7 8 1 2 "N").filterMap exportPath =
      ["out/mol_3.pdb", "out/mol_3.mol2", "out/mol_3.sdf", "out/mol_3.pdbqt"] :=
  ⟨(c10_batch_line_numbering envA "out" none "m" 2 8 false 7 8 1 ["C", "", "N"]
      2 "N" (by decide)).1,
   by decide⟩

/-- C1 (counterexample): the claimed order "parse, then optionally protonate,
then embed, then optimize, then export, then descriptors, then similarity,
then write outputs" fails on a concrete protonating run: the
protonation-library call (claim phase 1) and its variant prints (claim phase
7) precede the RDKit parse (claim phase 0), so the claim-phase sequence of
the trace is not nondecreasing. -/
theorem c1_counterexample :
    monotoneB ((single_process envA "C" "o" 2 (some "N") "m" 2 8 true 7 8).filterMap
      claimPhase) = false := by decide

/-- C1 (amended): every `single_process` run, and every per-line chunk of a
`batch_process` run, follows the single linear pipeline in the order the code
implements: optionally protonate (printing the variants), then parse, then
embed 3D, then optionally optimize, then export formats, then compute
descriptors, then write the molecule outputs, then optionally score
similarity, then write the similarity output — the `codePhase` sequence of
the trace is nondecreasing. -/
theorem c1_pipeline_order (env : Env) (s base outdir : String) (n i : Nat)
    (ref : Option Smiles) (rm : Option env.Mol) (ftype line : String)
    (radius nb : Nat) (prot : Bool) (pmin pmax : Rat) :
    monotoneB ((single_process env s base n ref ftype radius nb prot
      pmin pmax).filterMap codePhase) = true ∧
    monotoneB ((batchLine env outdir rm ftype radius nb prot pmin pmax n i
      line).filterMap codePhase) = true := by
  constructor
  · have h := phasesIn_append (ph_smiles_to_3d env s base n true prot pmin pmax)
      (ph_singleOutput env (smiles_to_3d env s base n true prot pmin pmax).2.1
        (smiles_to_3d env s base n true prot pmin pmax).2.2.1
        (smiles_to_3d env s base n true prot pmin pmax).2.2.2 ref ftype radius nb prot)
      (by omega) (by omega) (by omega)
    exact h.1
  · exact (ph_batchLine env outdir rm ftype radius nb prot pmin pmax n i line).1

/-- C2 (counterexample): a property-calculation failure does not make
`smiles_to_3d` return `None` for the molecule and the properties: at a
concrete environment whose `ExactMolWt` raises, the failure is caught and
logged but the molecule is returned together with the empty property
dictionary. -/
theorem c2_counterexample :
    (smiles_to_3d envB "C" "o" 1 false false 7 8).2 =
      (some 3, some [], some ["C"]) ∧
    (smiles_to_3d envB "C" "o" 1 false false 7 8).1.contains
      (Event.logEv "error" "Property calculation failed") = true :=
  ⟨by decide, by decide⟩

/-- C2 (amended): every failure mode of `smiles_to_3d` is caught and logged
and none escapes to the caller; an invalid SMILES, a conformer-generation
failure and an OpenBabel format-conversion failure each return
`(None, None, variants)`, while a property-calculation failure is caught and
logged but returns the molecule together with the empty property dictionary
(and per-format write failures are logged without aborting). -/
theorem c2_failure_handling (env : Env) (s b : String) (n : Nat)
    (pmin pmax : Rat) (m m2 : env.Mol) (obm : env.OBMol) (e : String) :
    (env.molFromSmiles s = none →
      smiles_to_3d env s b n false false pmin pmax =
        ([Event.parseEv s, Event.logEv "error" ("Invalid SMILES: " ++ s)],
         (none, none, some [s]))) ∧
    (env.molFromSmiles s = some m →
      env.embedMultipleConfs (env.addHs m) n 42 true = .error e →
      smiles_to_3d env s b n false false pmin pmax =
        ([Event.parseEv s, Event.embedEv n 42 true,
          Event.logEv "error" ("Conformer generation failed for " ++ s)],
         (none, none, some [s]))) ∧
    (env.molFromSmiles s = some m →
      env.embedMultipleConfs (env.addHs m) n 42 true = .ok m2 →
      convertToOB env m2 = .error e →
      smiles_to_3d env s b n false false pmin pmax =
        ([Event.parseEv s, Event.embedEv n 42 true, Event.convertEv,
          Event.logEv "error" "OpenBabel conversion failed"],
         (none, none, some [s]))) ∧
    (env.molFromSmiles s = some m →
      env.embedMultipleConfs (env.addHs m) n 42 true = .ok m2 →
      convertToOB env m2 = .ok obm → calcPropertiesE env m2 = .error e →
      smiles_to_3d env s b n false false pmin pmax =
        (Event.parseEv s :: Event.embedEv n 42 true :: Event.convertEv ::
          Event.mkdirEv b :: (writeFormats env obm b ++
            [Event.descriptorsEv,
             Event.logEv "error" "Property calculation failed"]),
         (some m2, some [], some [s]))) := by
  refine ⟨?_, ?_, ?_, ?_⟩
  · intro h1
    simp [smiles_to_3d, generate3d, h1]
  · intro h1 h2
    simp [smiles_to_3d, generate3d, h1, h2]
  · intro h1 h2 h3
    simp [smiles_to_3d, generate3d, exportAndProps, h1, h2, h3]
  · intro h1 h2 h3 h4
    simp [smiles_to_3d, generate3d, exportAndProps, calcProperties, h1, h2, h3, h4]

/-- Witness for C2 at four concrete environments, one per failure mode. -/
theorem c2_failure_handling_witness :
    (smiles_to_3d envA "" "o" 1 false false 7 8 =
      ([Event.parseEv "", Event.logEv "error" ("Invalid SMILES: " ++ "")],
       (none, none, some [""]))) ∧
    (smiles_to_3d envEmb "C" "o" 1 false false 7 8 =
      ([Event.parseEv "C", Event.embedEv 1 42 true,
        Event.logEv "error" ("Conformer generation failed for " ++ "C")],
       (none, none, some ["C"]))) ∧
    (smiles_to_3d envConv "C" "o" 1 false false 7 8 =
      ([Event.parseEv "C", Event.embedEv 1 42 true, Event.convertEv,
        Event.logEv "error" "OpenBabel conversion failed"],
       (none, none, some ["C"]))) ∧
    (smiles_to_3d envB "C" "o" 1 false false 7 8 =
      (Event.parseEv "C" :: Event.embedEv 1 42 true :: Event.convertEv ::
        Event.mkdirEv "o" :: (writeFormats envB 1 "o" ++
          [Event.descriptorsEv,
           Event.logEv "error" "Property calculation failed"]),
       (some 3, some [], some ["C"]))) :=
  ⟨(c2_failure_handling envA "" "o" 1 7 8 0 0 0 "x").1 rfl,
   (c2_failure_handling envEmb "C" "o" 1 7 8 1 0 0 "embed failure").2.1 rfl rfl,
   (c2_failure_handling envConv "C" "o" 1 7 8 1 3 0 "conversion failure").2.2.1
     rfl rfl rfl,
   (c2_failure_handling envB "C" "o" 1 7 8 1 3 1 "descriptor failure").2.2.2
     rfl rfl rfl rfl⟩

end Smil2Dock
